import Mathlib

/-
Verification of the self-healing RAG pipeline in `src/lib/rag-system.ts`
(classes `AutoFixRAGSystem` and `AutoFixRAGService`).

The embedding is shallow: JavaScript numbers are modelled by `JSNum`
(rationals plus NaN and the two infinities, since `0/0` arises in
`calculateConfidence`), strings by Lean `String` with character-wise
lowercasing, and the asynchronous methods by pure functions over an
explicit environment describing the outcome of each external call
(Qdrant store, embedding model, chat model).  Wall-clock timing fields
are modelled as the constant 0.
-/

namespace Rag

/-- JavaScript number semantics restricted to what the source uses:
rationals together with NaN and signed infinities (`inf true` is +∞). -/
inductive JSNum where
  | nan : JSNum
  | inf : Bool → JSNum
  | num : ℚ → JSNum
deriving DecidableEq, Repr

/-- JavaScript `+` on numbers. -/
def jsAdd : JSNum → JSNum → JSNum
  | .nan, _ => .nan
  | _, .nan => .nan
  | .inf s, .inf t => if s = t then .inf s else .nan
  | .inf s, .num _ => .inf s
  | .num _, .inf t => .inf t
  | .num a, .num b => .num (a + b)

/-- JavaScript `*` on numbers. -/
def jsMul : JSNum → JSNum → JSNum
  | .nan, _ => .nan
  | _, .nan => .nan
  | .inf s, .inf t => .inf (s == t)
  | .inf s, .num b => if b = 0 then .nan else if 0 < b then .inf s else .inf (!s)
  | .num a, .inf t => if a = 0 then .nan else if 0 < a then .inf t else .inf (!t)
  | .num a, .num b => .num (a * b)

/-- JavaScript `/` on numbers (division by zero treats the zero as +0). -/
def jsDiv : JSNum → JSNum → JSNum
  | .nan, _ => .nan
  | _, .nan => .nan
  | .inf _, .inf _ => .nan
  | .inf s, .num b => if 0 ≤ b then .inf s else .inf (!s)
  | .num _, .inf _ => .num 0
  | .num a, .num b =>
    if b = 0 then (if a = 0 then .nan else if 0 < a then .inf true else .inf false)
    else .num (a / b)

/-- JavaScript `Math.min` on two numbers: NaN-propagating minimum. -/
def jsMin : JSNum → JSNum → JSNum
  | .nan, _ => .nan
  | _, .nan => .nan
  | .inf false, _ => .inf false
  | _, .inf false => .inf false
  | .inf true, y => y
  | x, .inf true => x
  | .num a, .num b => .num (min a b)

/-- Character-wise model of `String.prototype.toLowerCase` (exact on ASCII,
which is all the repository's fixed strings use). -/
def jsToLower (s : String) : String := String.mk (s.toList.map Char.toLower)

/-- Helper for `jsSplitSpace`: accumulates the current token (reversed). -/
def splitSpaceAux : List Char → List Char → List String
  | [], acc => [String.mk acc.reverse]
  | c :: cs, acc =>
    if c = ' ' then String.mk acc.reverse :: splitSpaceAux cs []
    else splitSpaceAux cs (c :: acc)

/-- Model of JavaScript `s.split(' ')`: splits on each single space
character; the empty string splits to `[""]`. -/
def jsSplitSpace (s : String) : List String := splitSpaceAux s.toList []

/-- Infix test on character lists (model of substring containment). -/
def infixCheck (needle : List Char) : List Char → Bool
  | [] => needle.isEmpty
  | c :: t => needle.isPrefixOf (c :: t) || infixCheck needle t

/-- Model of JavaScript `s.includes(sub)`: `sub` occurs in `s`. -/
def jsIncludes (s sub : String) : Bool := infixCheck sub.toList s.toList

/-- Chunk metadata, modelled as an association list. -/
abbrev Metadata := List (String × String)

/-- LangChain `Document`: page content plus metadata. -/
structure Document where
  pageContent : String
  metadata : Metadata
deriving DecidableEq, Repr

/-- The question words of `calculateConfidence` (line 593 of the source):
lowercase the question, split on the space character, keep tokens longer
than 3 characters. -/
def questionWordsOf (question : String) : List String :=
  (jsSplitSpace (jsToLower question)).filter (fun w => w.length > 3)

/-- Body of the `for` loop of `calculateConfidence` (lines 596-612):
the score contributed by one document. -/
def docScoreJS (question : String) (questionWords : List String) (doc : Document) : JSNum :=
  let content := jsToLower doc.pageContent
  let s1 : JSNum :=
    if jsIncludes content (jsToLower question) then jsAdd (.num 0) (.num 0.4) else .num 0
  let matchedWords := questionWords.filter (fun w => jsIncludes content w)
  let s2 := jsAdd s1 (jsMul (jsDiv (.num matchedWords.length) (.num questionWords.length)) (.num 0.3))
  if doc.pageContent.length > 200 then jsAdd s2 (.num 0.1) else s2

/-- `AutoFixRAGSystem.calculateConfidence` (lines 590-615 of the source),
with JavaScript number semantics (in particular `0/0 = NaN` when the
question has no word longer than 3 characters). -/
def calculateConfidence (question : String) (docs : List Document) : JSNum :=
  if docs.length = 0 then .num 0
  else
    let questionWords := questionWordsOf question
    let totalScore :=
      docs.foldl (fun acc doc => jsAdd acc (docScoreJS question questionWords doc)) (.num 0)
    jsMin (jsDiv totalScore (.num docs.length)) (.num 1)

/-- Ideal (rational-valued) per-chunk score, as the spec describes it but
with the source's space-character split; meaningful when the question has
at least one question word (otherwise the source computes NaN while Lean
division yields `0/0 = 0`). -/
def docScoreQ (question : String) (doc : Document) : ℚ :=
  let content := jsToLower doc.pageContent
  let qw := questionWordsOf question
  (if jsIncludes content (jsToLower question) then 0.4 else 0)
    + ((qw.filter (fun w => jsIncludes content w)).length : ℚ) / (qw.length : ℚ) * 0.3
    + (if doc.pageContent.length > 200 then 0.1 else 0)

/-- Rational-valued confidence following the spec sentence (with the
source's space-character split): average the per-chunk scores, clamp at 1. -/
def specConfidence (question : String) (docs : List Document) : ℚ :=
  if docs.length = 0 then 0
  else min (((docs.map (docScoreQ question)).sum) / (docs.length : ℚ)) 1

/-- Helper for `specConfidenceWS`: split on any whitespace character,
which is how the claim reads "whitespace-split tokens". -/
def splitWSAux : List Char → List Char → List String
  | [], acc => [String.mk acc.reverse]
  | c :: cs, acc =>
    if c.isWhitespace then String.mk acc.reverse :: splitWSAux cs []
    else splitWSAux cs (c :: acc)

/-- Question words as the claim states them: whitespace-split tokens of the
lowercased question that are longer than 3 characters. -/
def wsQuestionWordsOf (question : String) : List String :=
  (splitWSAux (jsToLower question).toList []).filter (fun w => w.length > 3)

/-- Per-chunk score exactly as claim C6 words it (whitespace-split words). -/
def wsDocScoreQ (question : String) (doc : Document) : ℚ :=
  let content := jsToLower doc.pageContent
  let qw := wsQuestionWordsOf question
  (if jsIncludes content (jsToLower question) then 0.4 else 0)
    + ((qw.filter (fun w => jsIncludes content w)).length : ℚ) / (qw.length : ℚ) * 0.3
    + (if doc.pageContent.length > 200 then 0.1 else 0)

/-- Confidence exactly as claim C6 words it: average of the
whitespace-split per-chunk scores, clamped to at most 1. -/
def specConfidenceWS (question : String) (docs : List Document) : ℚ :=
  if docs.length = 0 then 0
  else min (((docs.map (wsDocScoreQ question)).sum) / (docs.length : ℚ)) 1

/-! ## Stateful model

The asynchronous methods of `AutoFixRAGSystem` / `AutoFixRAGService` are
modelled as pure functions over an explicit environment recording the
outcome of each external call (Qdrant, embedding model, chat model).
JavaScript `Error` values are modelled by their message; string
interpolation of an error (`` `${error}` ``) prefixes "Error: ". -/

/-- A JavaScript `Error`, identified by its message. -/
structure Err where
  message : String
deriving DecidableEq, Repr

/-- `String(error)` for an `Error` value. -/
def errString (e : Err) : String := "Error: " ++ e.message

/-- Rethrow pattern `throw new Error(\x60ctx ${error}\x60)`. -/
def wrapErr (ctx : String) (e : Err) : Err := ⟨ctx ++ errString e⟩

/-- The state of the named Qdrant collection, as far as the source reads
it: configured vector size (`none` when the config carries no size),
point counts, and whether `getCollection` / the probe query succeed. -/
structure StoreCollection where
  width : Option Nat
  points : Nat
  vectorsCount : Nat
  readable : Bool
  queryable : Bool
deriving DecidableEq, Repr

/-- The store holds at most the one named collection. -/
abbrev Store := Option StoreCollection

/-- The mutable fields of `AutoFixRAGSystem` relevant to the claims:
`vectorStore` and `retrievalChain` reduced to null/non-null, and the
cached embedding width `actualVectorSize`. -/
structure SysState where
  vectorStore : Bool
  retrievalChain : Bool
  actualVectorSize : Option Nat
deriving DecidableEq, Repr

/-- Outcomes of the external calls made during collection
initialization: the Qdrant health check and the embedding probe. -/
structure QdrantEnv where
  healthy : Bool
  probe : Except Err Nat
deriving Repr

/-- JavaScript truthiness of `this.actualVectorSize` (0 is falsy). -/
def truthySize : Option Nat → Bool
  | none => false
  | some w => w != 0

/-- `detectEmbeddingDimensions` (lines 106-117): return the cached width
if truthy, otherwise probe the embedding model once and cache the result. -/
def detectDims (env : QdrantEnv) (st : SysState) : Except Err (Nat × SysState) :=
  if truthySize st.actualVectorSize then .ok (st.actualVectorSize.getD 0, st)
  else
    match env.probe with
    | .ok w => .ok (w, { st with actualVectorSize := some w })
    | .error e => .error e

/-- Store operations performed during initialization, for observing
deletion/creation. -/
inductive StoreOp where
  | deleted : StoreOp
  | created : Nat → StoreOp
deriving DecidableEq, Repr

/-- `createCollectionWithDimensions` (lines 224-242): a fresh collection
with the given width, zero points, cosine distance. -/
def newCollection (w : Nat) : StoreCollection :=
  { width := some w, points := 0, vectorsCount := 0, readable := true, queryable := true }

/-- Context string of the catch-all in `initializeCollection`. -/
def initFailMsg : String := "Failed to initialize collection: "

/-- `initializeCollection` (lines 137-208): health check, dimension
detection, then existence/width/liveness reconciliation of the collection
(delete and recreate on unreadable config, width mismatch, or failed
liveness probe).  Store deletion/creation calls are modelled as
succeeding; their occurrence is recorded in the returned operation list. -/
def initCollection (env : QdrantEnv) (st : SysState) (store : Store) :
    Except Err (SysState × Store × List StoreOp) :=
  if !env.healthy then
    .error (wrapErr initFailMsg ⟨"Qdrant server is not accessible or healthy"⟩)
  else
    match detectDims env st with
    | .error e => .error (wrapErr initFailMsg e)
    | .ok (w, st1) =>
      let result : Store × List StoreOp :=
        match store with
        | some col =>
          if !col.readable then (some (newCollection w), [.deleted, .created w])
          else if col.width ≠ some w then (some (newCollection w), [.deleted, .created w])
          else if !col.queryable then (some (newCollection w), [.deleted, .created w])
          else (some col, [])
        | none => (some (newCollection w), [.created w])
      .ok ({ st1 with vectorStore := true }, result.1, result.2)

/-- The state of `AutoFixRAGService`: the initialized flag plus the inner
system state. -/
structure ServiceState where
  isInitialized : Bool
  sys : SysState
deriving DecidableEq, Repr

/-- `AutoFixRAGService.initialize` (lines 689-700): no-op when already
initialized, otherwise run `initializeCollection` and set the flag. -/
def initService (env : QdrantEnv) (svc : ServiceState) (store : Store) :
    Except Err (ServiceState × Store × List StoreOp) :=
  if svc.isInitialized then .ok (svc, store, [])
  else
    match initCollection env svc.sys store with
    | .ok (st2, store2, ops) => .ok ({ isInitialized := true, sys := st2 }, store2, ops)
    | .error e => .error e

/-- Outcomes of the two possible `addDocuments` batch upserts during one
`processText` call. -/
structure IngestEnv where
  addDocs1 : Except Err Unit
  addDocs2 : Except Err Unit
deriving Repr

/-- Context string of the catch-all in `processText`. -/
def procFailMsg : String := "Failed to process text: "

/-- The repair step of `processText` (lines 292-293): drop the vector
store handle and clear the cached embedding width before reinitializing. -/
def resetForRepair (st : SysState) : SysState :=
  { st with vectorStore := false, actualVectorSize := none }

/-- JavaScript `text.trim().length === 0`. -/
def jsBlank (s : String) : Bool := s.toList.all (fun c => c.isWhitespace)

/-- `processText` (lines 247-313): lazy collection initialization, input
validation, then the document upsert with a single dimension-mismatch
repair-and-retry cycle.  Chunking and per-chunk metadata construction
(external text splitter, fresh UUIDs and timestamps) do not affect the
control flow under verification and are not modelled.  The second
component counts upsert attempts. -/
def processText (ienv : IngestEnv) (qenv : QdrantEnv) (st : SysState) (store : Store)
    (text : String) : Except Err (SysState × Store) × Nat :=
  let init1 : Except Err (SysState × Store) :=
    if !st.vectorStore then
      match initCollection qenv st store with
      | .ok (st1, store1, _) => .ok (st1, store1)
      | .error e => .error e
    else .ok (st, store)
  match init1 with
  | .error e => (.error (wrapErr procFailMsg e), 0)
  | .ok (st1, store1) =>
    if text == "" || jsBlank text then
      (.error (wrapErr procFailMsg ⟨"No text content provided"⟩), 0)
    else
      match ienv.addDocs1 with
      | .ok _ => (.ok ({ st1 with retrievalChain := true }, store1), 1)
      | .error e =>
        if jsIncludes e.message "dimension" then
          match initCollection qenv (resetForRepair st1) store1 with
          | .error e2 => (.error (wrapErr procFailMsg e2), 1)
          | .ok (st2, store2, _) =>
            match ienv.addDocs2 with
            | .ok _ => (.ok ({ st2 with retrievalChain := true }, store2), 2)
            | .error e3 => (.error (wrapErr procFailMsg e3), 2)
        else (.error (wrapErr procFailMsg e), 1)

/-- The value returned by `getCollectionStats`. -/
structure CollectionStats where
  totalPoints : Nat
  vectorsCount : Nat
  collectionName : String
  isReady : Bool
  vectorDimensions : Nat
deriving DecidableEq, Repr

/-- JavaScript `this.actualVectorSize || 768` (0 is falsy). -/
def orDefault768 : Option Nat → Nat
  | none => 768
  | some w => if w != 0 then w else 768

/-- The `try` body of `getCollectionStats` (lines 624-633): fails when the
collection cannot be read. -/
def getCollectionStatsTry (cname : String) (st : SysState) (store : Store) :
    Except Err CollectionStats :=
  match store with
  | some col =>
    if col.readable then
      .ok { totalPoints := col.points, vectorsCount := col.vectorsCount,
            collectionName := cname, isReady := st.retrievalChain,
            vectorDimensions := orDefault768 st.actualVectorSize }
    else .error ⟨"failed to read collection"⟩
  | none => .error ⟨"collection not found"⟩

/-- `getCollectionStats` (lines 617-644): total by construction — the
catch branch turns any read failure into a zero-valued, not-ready result. -/
def getCollectionStats (cname : String) (st : SysState) (store : Store) : CollectionStats :=
  match getCollectionStatsTry cname st store with
  | .ok s => s
  | .error _ =>
    { totalPoints := 0, vectorsCount := 0, collectionName := cname,
      isReady := false, vectorDimensions := orDefault768 st.actualVectorSize }

/-- Whether reading the collection from the store fails (missing
collection or unreadable config). -/
def storeReadFails (store : Store) : Bool :=
  match store with
  | none => true
  | some col => !col.readable

/-- `AutoFixRAGService.getStats` (lines 746-768): fixed zero value when
not initialized, otherwise `getCollectionStats`; total by construction
(its own catch branch is unreachable since `getCollectionStats` is total). -/
def getStats (cname : String) (svc : ServiceState) (store : Store) : CollectionStats :=
  if !svc.isInitialized then
    { totalPoints := 0, vectorsCount := 0, collectionName := "Not initialized",
      isReady := false, vectorDimensions := 768 }
  else getCollectionStats cname svc.sys store

/-- Outcome of the `deleteCollection` call made by `clearDocuments`. -/
structure ClearEnv where
  deleteOk : Bool
deriving Repr

/-- The fully reset system state `clearDocuments` leaves behind. -/
def resetSys : SysState :=
  { vectorStore := false, retrievalChain := false, actualVectorSize := none }

/-- `clearDocuments` (lines 646-662): delete the collection only when the
vector store handle is bound, then null out handle, chain and cached
width.  A delete failure is rethrown before any field is reset. -/
def clearDocuments (env : ClearEnv) (st : SysState) (store : Store) :
    Except Err (SysState × Store) :=
  if st.vectorStore then
    if env.deleteOk then .ok (resetSys, none)
    else .error ⟨"failed to delete collection"⟩
  else .ok (resetSys, store)

/-- `AutoFixRAGService.clearAll` (lines 770-779): `clearDocuments`, then
drop the initialized flag; errors propagate before the flag is dropped. -/
def clearAll (env : ClearEnv) (svc : ServiceState) (store : Store) :
    Except Err (ServiceState × Store) :=
  match clearDocuments env svc.sys store with
  | .ok (st1, store1) => .ok ({ isInitialized := false, sys := st1 }, store1)
  | .error e => .error e

/-- A complex (non-string) content part of an `AIMessageChunk`: a plain
object, whose JavaScript string coercion is "[object Object]". -/
structure ContentPart where
  partKind : String
deriving DecidableEq, Repr

/-- LangChain `MessageContent`: a string or an array of complex parts. -/
inductive MessageContent where
  | str : String → MessageContent
  | parts : List ContentPart → MessageContent
deriving DecidableEq, Repr

/-- JavaScript truthiness of a content value: the empty string is falsy,
every array (including the empty array) is truthy. -/
def jsTruthyContent : MessageContent → Bool
  | .str s => s != ""
  | .parts _ => true

/-- JavaScript `String(content)`: identity on strings; an array coerces to
its elements' coercions joined by commas (so the empty array coerces to
the empty string). -/
def jsStringOf : MessageContent → String
  | .str s => s
  | .parts xs => String.intercalate "," (xs.map (fun _ => "[object Object]"))

/-- A chunk of the model's generation stream. -/
structure AIMessageChunk where
  content : MessageContent
deriving DecidableEq, Repr

/-- Loop body of `convertStreamToStringIterable` (lines 581-587): yield
truthy string content as is, the string coercion of other truthy content,
and nothing for falsy content. -/
def convertChunk (chunk : AIMessageChunk) : Option String :=
  match chunk.content with
  | .str s => if s != "" then some s else none
  | .parts xs => some (jsStringOf (.parts xs))

/-- `convertStreamToStringIterable` (lines 578-588), with the stream as
the list of chunks it produces. -/
def convertStreamToStringIterable (stream : List AIMessageChunk) : List String :=
  stream.filterMap convertChunk

/-- A point payload as read back from Qdrant (lines 456-459): both fields
may be absent. -/
structure PointPayload where
  pageContent : Option String
  metadata : Option Metadata
deriving DecidableEq, Repr

/-- A point returned by a direct Qdrant query; the payload itself may be
absent. -/
structure QdrantPoint where
  payload : Option PointPayload
deriving DecidableEq, Repr

/-- Reconstruction of a `Document` from a Qdrant point (lines 456-459):
missing fields default to the empty string / empty metadata via
JavaScript `||`. -/
def pointToDoc (p : QdrantPoint) : Document :=
  { pageContent := (p.payload.bind PointPayload.pageContent).getD "",
    metadata := (p.payload.bind PointPayload.metadata).getD [] }

/-- Outcomes of the external calls made while answering one question:
the three retrieval tiers (similarity search, retriever handle, direct
Qdrant query including its embedding call), the retrieval chain, and the
manual-fallback chat call. -/
structure QAEnv where
  tier1 : Except Err (List Document)
  tier2 : Except Err (List Document)
  tier3 : Except Err (List QdrantPoint)
  chain : Except Err String
  llm : Except Err MessageContent
deriving Repr

/-- The three-tier retrieval cascade of `askQuestion` (lines 429-467):
each tier is attempted only when the previous one threw; if all three
throw, the innermost (tier-3) error is attached to the propagated error. -/
def retrieveDocs (env : QAEnv) : Except Err (List Document) :=
  match env.tier1 with
  | .ok docs => .ok docs
  | .error _ =>
    match env.tier2 with
    | .ok docs => .ok docs
    | .error _ =>
      match env.tier3 with
      | .ok points => .ok (points.map pointToDoc)
      | .error e => .error ⟨"All retrieval methods failed: " ++ errString e⟩

/-- Answer generation of `askQuestion` (lines 487-506): the retrieval
chain, falling back to one plain chat call whose content is coerced to a
string. -/
def genAnswer (env : QAEnv) : Except Err String :=
  match env.chain with
  | .ok a => .ok a
  | .error _ =>
    match env.llm with
    | .ok content =>
      .ok (match content with
        | .str s => s
        | c => jsStringOf c)
    | .error e => .error e

/-- The fixed not-found answer (lines 472-473). -/
def notFoundMsg : String :=
  "I couldn\x27t find any relevant documents to answer your question. Please make sure documents have been uploaded and processed correctly."

/-- The `QAResult` returned by `askQuestion`; the wall-clock timing
fields are modelled as 0. -/
structure QAResult where
  answer : String
  sources : List Document
  confidence : JSNum
  retrievalTime : Nat
  generationTime : Nat
  chunksUsed : Nat
deriving DecidableEq, Repr

/-- Context string of the catch-all in `askQuestion`. -/
def askFailMsg : String := "Failed to answer question: "

/-- The `try` body of `askQuestion` (lines 415-523): empty-collection
check, three-tier retrieval, the fixed not-found result on zero retrieved
documents, then generation and confidence scoring. -/
def askBody (cname : String) (env : QAEnv) (st : SysState) (store : Store)
    (question : String) : Except Err QAResult :=
  if (getCollectionStats cname st store).totalPoints = 0 then
    .error ⟨"No documents found in the collection. Please upload documents first."⟩
  else
    match retrieveDocs env with
    | .error e => .error e
    | .ok relevantDocs =>
      if relevantDocs.length = 0 then
        .ok { answer := notFoundMsg, sources := [], confidence := .num 0,
              retrievalTime := 0, generationTime := 0, chunksUsed := 0 }
      else
        match genAnswer env with
        | .error e => .error e
        | .ok answer =>
          .ok { answer := answer, sources := relevantDocs,
                confidence := calculateConfidence question relevantDocs,
                retrievalTime := 0, generationTime := 0, chunksUsed := relevantDocs.length }

/-- `askQuestion` (lines 410-528): the not-processed guard throws outside
the `try`; every error thrown inside the body is wrapped by the catch-all. -/
def askQuestion (cname : String) (env : QAEnv) (st : SysState) (store : Store)
    (question : String) : Except Err QAResult :=
  if !st.retrievalChain || !st.vectorStore then
    .error ⟨"No documents processed yet. Please upload and process a document first."⟩
  else
    match askBody cname env st store question with
    | .ok r => .ok r
    | .error e => .error (wrapErr askFailMsg e)

theorem jsAdd_num_num (a b : ℚ) : jsAdd (.num a) (.num b) = .num (a + b) := rfl

theorem jsAdd_num_nan (a : ℚ) : jsAdd (.num a) .nan = .nan := rfl

theorem jsAdd_nan (x : JSNum) : jsAdd .nan x = .nan := by cases x <;> rfl

theorem jsMul_num_num (a b : ℚ) : jsMul (.num a) (.num b) = .num (a * b) := rfl

theorem jsMul_nan (x : JSNum) : jsMul .nan x = .nan := by cases x <;> rfl

theorem jsDiv_num_num (a b : ℚ) (h : b ≠ 0) : jsDiv (.num a) (.num b) = .num (a / b) := by
  simp [jsDiv, h]

theorem jsDiv_zero_zero : jsDiv (.num 0) (.num 0) = .nan := by simp [jsDiv]

theorem jsDiv_nan (x : JSNum) : jsDiv .nan x = .nan := by cases x <;> rfl

theorem jsMin_num_num (a b : ℚ) : jsMin (.num a) (.num b) = .num (min a b) := by
  simp [jsMin, min_def]

theorem jsMin_nan : ∀ x : JSNum, jsMin .nan x = .nan
  | .nan => rfl
  | .inf true => rfl
  | .inf false => rfl
  | .num _ => rfl

example : questionWordsOf "hi" = [] := by decide

example : questionWordsOf "alpha\nbeta" = ["alpha\nbeta"] := by decide

example : wsQuestionWordsOf "alpha\nbeta" = ["alpha", "beta"] := by decide

example : calculateConfidence "hi" [⟨"hello world", []⟩] = .nan := by
  have hq : questionWordsOf "hi" = [] := by decide
  have hinc : jsIncludes (jsToLower "hello world") (jsToLower "hi") = false := by decide
  have hlen : ("hello world".length > 200) = False := by decide
  simp only [calculateConfidence, docScoreJS, hq, hinc, hlen, List.length_cons,
    List.length_nil, List.filter_nil, Nat.cast_zero, List.foldl_cons, List.foldl_nil,
    if_false, Bool.false_eq_true, jsDiv_zero_zero, jsMul_nan, jsAdd_num_nan,
    jsDiv_nan, jsMin_nan, reduceIte]
  norm_num

example : calculateConfidence "hello" [] = .num 0 := by decide

theorem docScoreJS_eq_num (question : String) (hw : questionWordsOf question ≠ [])
    (doc : Document) :
    docScoreJS question (questionWordsOf question) doc = .num (docScoreQ question doc) := by
  have ht : (((questionWordsOf question).length : ℚ)) ≠ 0 := by
    have : (questionWordsOf question).length ≠ 0 :=
      fun h => hw (List.length_eq_zero.mp h)
    exact_mod_cast this
  simp only [docScoreJS, docScoreQ]
  split_ifs <;>
    simp only [jsDiv_num_num _ _ ht, jsMul_num_num, jsAdd_num_num, JSNum.num.injEq] <;>
    ring

theorem foldl_jsAdd_num (f : Document → JSNum) (g : Document → ℚ)
    (h : ∀ d, f d = .num (g d)) :
    ∀ (l : List Document) (a : ℚ),
      l.foldl (fun acc d => jsAdd acc (f d)) (.num a) = .num (a + (l.map g).sum)
  | [], a => by simp
  | d :: l, a => by
    rw [List.foldl_cons, h d, jsAdd_num_num, foldl_jsAdd_num f g h l (a + g d)]
    simp only [List.map_cons, List.sum_cons, JSNum.num.injEq]
    ring

theorem calcConfidence_eq_spec (question : String) (docs : List Document)
    (hd : docs ≠ []) (hw : questionWordsOf question ≠ []) :
    calculateConfidence question docs = .num (specConfidence question docs) := by
  have hlen : docs.length ≠ 0 := fun h => hd (List.length_eq_zero.mp h)
  have hlenQ : ((docs.length : ℚ)) ≠ 0 := by exact_mod_cast hlen
  simp only [calculateConfidence, specConfidence, if_neg hlen]
  rw [foldl_jsAdd_num _ _ (docScoreJS_eq_num question hw) docs 0,
    jsDiv_num_num _ _ hlenQ, jsMin_num_num]
  norm_num

theorem docScoreQ_nonneg (question : String) (doc : Document) :
    0 ≤ docScoreQ question doc := by
  unfold docScoreQ
  split_ifs <;> positivity

theorem docScoreQ_le (question : String) (hw : questionWordsOf question ≠ [])
    (doc : Document) : docScoreQ question doc ≤ 0.8 := by
  have ht : (0:ℚ) < (((questionWordsOf question).length : ℚ)) := by
    have : 0 < (questionWordsOf question).length := List.length_pos.mpr hw
    exact_mod_cast this
  have hm : ((((questionWordsOf question).filter
      (fun w => jsIncludes (jsToLower doc.pageContent) w)).length : ℚ))
      ≤ (((questionWordsOf question).length : ℚ)) := by
    exact_mod_cast List.length_filter_le _ _
  have hfrac : ((((questionWordsOf question).filter
      (fun w => jsIncludes (jsToLower doc.pageContent) w)).length : ℚ))
      / (((questionWordsOf question).length : ℚ)) ≤ 1 :=
    (div_le_one ht).mpr hm
  simp only [docScoreQ]
  split_ifs <;> linarith

theorem specConfidence_nonneg (question : String) (docs : List Document) :
    0 ≤ specConfidence question docs := by
  unfold specConfidence
  split_ifs
  · exact le_refl 0
  · refine le_min (div_nonneg ?_ (by positivity)) zero_le_one
    refine List.sum_nonneg ?_
    intro x hx
    obtain ⟨d, _, rfl⟩ := List.mem_map.mp hx
    exact docScoreQ_nonneg question d

theorem specConfidence_le_one (question : String) (docs : List Document) :
    specConfidence question docs ≤ 1 := by
  unfold specConfidence
  split_ifs
  · exact zero_le_one
  · exact min_le_right _ _

theorem specConfidence_singleton (question : String) (c : Document) :
    specConfidence question [c] = min (docScoreQ question c) 1 := by
  unfold specConfidence
  norm_num

/-- Claim C1 (amended): `calculateConfidence` returns 0 for an empty chunk
list, and for any chunk list it returns a rational in the closed interval
[0,1] provided the question has at least one space-split token longer than
3 characters.  (Without such a token the source computes `0/0 = NaN`.) -/
theorem confidence_bounds (question : String) (docs : List Document) :
    calculateConfidence question [] = .num 0 ∧
    (questionWordsOf question ≠ [] →
      ∃ r : ℚ, calculateConfidence question docs = .num r ∧ 0 ≤ r ∧ r ≤ 1) := by
  refine ⟨rfl, fun hw => ?_⟩
  by_cases hd : docs = []
  · exact ⟨0, by rw [hd]; rfl, le_refl 0, zero_le_one⟩
  · exact ⟨specConfidence question docs, calcConfidence_eq_spec question docs hd hw,
      specConfidence_nonneg question docs, specConfidence_le_one question docs⟩

/-- Witness for `confidence_bounds` at the question "hello" and one chunk. -/
theorem confidence_bounds_witness :
    questionWordsOf "hello" ≠ [] ∧
    (∃ r : ℚ, calculateConfidence "hello" [⟨"xy", []⟩] = .num r ∧ 0 ≤ r ∧ r ≤ 1) := by
  have hw : questionWordsOf "hello" ≠ [] := by decide
  exact ⟨hw, (confidence_bounds "hello" [⟨"xy", []⟩]).2 hw⟩

/-- Counterexample to claim C1 as stated: for the question "hi" (no token
longer than 3 characters) and a non-empty chunk list, the source computes
`0/0 = NaN`, which is not a number in [0,1]. -/
theorem confidence_nan_counterexample :
    calculateConfidence "hi" [⟨"hello world", []⟩] = .nan ∧
    ∀ r : ℚ, (JSNum.nan : JSNum) ≠ .num r := by
  refine ⟨?_, fun r h => JSNum.noConfusion h⟩
  have hq : questionWordsOf "hi" = [] := by decide
  have hinc : jsIncludes (jsToLower "hello world") (jsToLower "hi") = false := by decide
  have hlen : ("hello world".length > 200) = False := by decide
  simp only [calculateConfidence, docScoreJS, hq, hinc, hlen, List.length_cons,
    List.length_nil, List.filter_nil, Nat.cast_zero, List.foldl_cons, List.foldl_nil,
    if_false, Bool.false_eq_true, jsDiv_zero_zero, jsMul_nan, jsAdd_num_nan,
    jsDiv_nan, jsMin_nan, reduceIte]
  norm_num

/-- Counterexample to claim C6 as stated: the source splits the question on
the space character only, not on general whitespace.  For the question
"alpha\nbeta" (a newline between the words) the source sees one question
word "alpha\nbeta" and computes confidence 0 on the chunk
"alpha beta gamma", while the claim's whitespace-split formula computes
0.3. -/
theorem confidence_formula_counterexample :
    ¬ (calculateConfidence "alpha\nbeta" [⟨"alpha beta gamma", []⟩]
        = .num (specConfidenceWS "alpha\nbeta" [⟨"alpha beta gamma", []⟩])) := by
  have h1 : calculateConfidence "alpha\nbeta" [⟨"alpha beta gamma", []⟩]
      = .num (specConfidence "alpha\nbeta" [⟨"alpha beta gamma", []⟩]) :=
    calcConfidence_eq_spec _ _ (by simp) (by decide)
  have hincl : jsIncludes (jsToLower "alpha beta gamma") (jsToLower "alpha\nbeta") = false := by
    decide
  have hfilter : (questionWordsOf "alpha\nbeta").filter
      (fun w => jsIncludes (jsToLower "alpha beta gamma") w) = [] := by decide
  have hwsfilter : (wsQuestionWordsOf "alpha\nbeta").filter
      (fun w => jsIncludes (jsToLower "alpha beta gamma") w) = ["alpha", "beta"] := by decide
  have hlen : ¬ ((200:ℕ) < "alpha beta gamma".length) := by decide
  have h2 : specConfidence "alpha\nbeta" [⟨"alpha beta gamma", []⟩] = 0 := by
    rw [specConfidence_singleton]
    simp only [docScoreQ, hincl, hfilter, hlen]
    norm_num
  have h3 : specConfidenceWS "alpha\nbeta" [⟨"alpha beta gamma", []⟩] = 3/10 := by
    have hq : (wsQuestionWordsOf "alpha\nbeta").length = 2 := by decide
    have hd : wsDocScoreQ "alpha\nbeta" ⟨"alpha beta gamma", []⟩ = 3/10 := by
      simp only [wsDocScoreQ, hincl, hwsfilter, hlen, hq, gt_iff_lt,
        List.length_cons, List.length_nil]
      norm_num
    simp only [specConfidenceWS, List.map_cons, List.map_nil, List.sum_cons,
      List.sum_nil, List.length_cons, List.length_nil, hd]
    norm_num [min_def]
  rw [h1, h2, h3]
  simp only [ne_eq, JSNum.num.injEq]
  norm_num

/-- Claim C6 (amended): for questions with at least one space-split token
longer than 3 characters (the source splits on the space character, not on
general whitespace; with no such token the score is NaN), the confidence
equals the average over chunks of the per-chunk score 0.4·(contains the
lowercased question) + 0.3·(matched word fraction) + 0.1·(length > 200),
clamped to at most 1; and a chunk containing the question scores strictly
higher than an unrelated chunk of equal length. -/
theorem confidence_formula (question : String) (hw : questionWordsOf question ≠ []) :
    (∀ docs : List Document, docs ≠ [] →
      calculateConfidence question docs = .num (specConfidence question docs)) ∧
    (∀ c1 c2 : Document,
      jsIncludes (jsToLower c1.pageContent) (jsToLower question) = true →
      (∀ w ∈ questionWordsOf question, jsIncludes (jsToLower c2.pageContent) w = false) →
      jsIncludes (jsToLower c2.pageContent) (jsToLower question) = false →
      c1.pageContent.length = c2.pageContent.length →
      ∃ r1 r2 : ℚ, calculateConfidence question [c1] = .num r1 ∧
        calculateConfidence question [c2] = .num r2 ∧ r2 < r1) := by
  refine ⟨fun docs hd => calcConfidence_eq_spec question docs hd hw, ?_⟩
  intro c1 c2 h1 h2 h3 hlen
  refine ⟨specConfidence question [c1], specConfidence question [c2],
    calcConfidence_eq_spec question [c1] (by simp) hw,
    calcConfidence_eq_spec question [c2] (by simp) hw, ?_⟩
  rw [specConfidence_singleton, specConfidence_singleton]
  have hfilter : (questionWordsOf question).filter
      (fun w => jsIncludes (jsToLower c2.pageContent) w) = [] := by
    rw [List.filter_eq_nil_iff]
    intro w hwmem
    simp [h2 w hwmem]
  have hb2 : docScoreQ question c2
      = (if 200 < c2.pageContent.length then (0.1:ℚ) else 0) := by
    simp only [docScoreQ, h3, hfilter, gt_iff_lt]
    norm_num
  have hfnn : (0:ℚ) ≤ (((questionWordsOf question).filter
      (fun w => jsIncludes (jsToLower c1.pageContent) w)).length : ℚ)
      / (((questionWordsOf question).length : ℚ)) := by positivity
  have hs1 : docScoreQ question c1
      = 0.4 + (((questionWordsOf question).filter
          (fun w => jsIncludes (jsToLower c1.pageContent) w)).length : ℚ)
          / (((questionWordsOf question).length : ℚ)) * 0.3
        + (if 200 < c2.pageContent.length then (0.1:ℚ) else 0) := by
    simp only [docScoreQ, h1, hlen, gt_iff_lt]
    norm_num
  have hub1 : docScoreQ question c1 ≤ 0.8 := docScoreQ_le question hw c1
  have hub2 : docScoreQ question c2 ≤ 0.1 := by
    rw [hb2]; split_ifs <;> norm_num
  rw [min_eq_left (by linarith : docScoreQ question c1 ≤ 1),
    min_eq_left (by linarith : docScoreQ question c2 ≤ 1)]
  rw [hb2, hs1]
  split_ifs <;> linarith

/-- Witness for `confidence_formula` at a concrete question and a pair of
chunks of equal length, one containing the question, one unrelated. -/
theorem confidence_formula_witness :
    questionWordsOf "capital city" ≠ [] ∧
    (∃ r1 r2 : ℚ,
      calculateConfidence "capital city" [⟨"the capital city is paris", []⟩] = .num r1 ∧
      calculateConfidence "capital city" [⟨"zzzz xxxx vvvv nnnn mmmmm", []⟩] = .num r2 ∧
      r2 < r1) := by
  have hw : questionWordsOf "capital city" ≠ [] := by decide
  refine ⟨hw, (confidence_formula "capital city" hw).2
    ⟨"the capital city is paris", []⟩ ⟨"zzzz xxxx vvvv nnnn mmmmm", []⟩
    (by decide) (by decide) (by decide) (by decide)⟩

theorem detectDims_ok (env : QdrantEnv) (st : SysState) (w : Nat) (st1 : SysState)
    (h : detectDims env st = .ok (w, st1)) : st1.actualVectorSize = some w := by
  unfold detectDims at h
  by_cases ht : truthySize st.actualVectorSize
  · rw [if_pos ht] at h
    obtain ⟨h1, h2⟩ := Prod.mk.injEq .. ▸ (Except.ok.injEq .. ▸ h)
    cases hsv : st.actualVectorSize with
    | none => rw [hsv] at ht; exact absurd ht (by simp [truthySize])
    | some w0 =>
      rw [← h2, hsv, ← h1, hsv]
      rfl
  · rw [if_neg ht] at h
    cases hp : env.probe with
    | ok w0 =>
      rw [hp] at h
      obtain ⟨h1, h2⟩ := Prod.mk.injEq .. ▸ (Except.ok.injEq .. ▸ h)
      rw [← h2, ← h1]
    | error e => rw [hp] at h; exact absurd h (by simp)

/-- Claim C3: after a successful `initializeCollection`, the collection
exists with configured width equal to the detected embedding width (the
cached-or-probed value of `detectEmbeddingDimensions`), and if a
pre-existing collection's width differed from the detected width it was
deleted and recreated, losing all stored points. -/
theorem initCollection_reconciles (env : QdrantEnv) (st : SysState) (store : Store)
    (st2 : SysState) (store2 : Store) (ops : List StoreOp)
    (h : initCollection env st store = .ok (st2, store2, ops)) :
    ∃ w st1, detectDims env st = .ok (w, st1) ∧
      st2.actualVectorSize = some w ∧
      (∃ col2, store2 = some col2 ∧ col2.width = some w) ∧
      (∀ col, store = some col → col.width ≠ some w →
        store2 = some (newCollection w) ∧ ops = [.deleted, .created w]) := by
  unfold initCollection at h
  by_cases hh : env.healthy
  case neg => simp [hh] at h
  case pos =>
  rw [hh] at h
  simp only [Bool.not_true, Bool.false_eq_true, if_false] at h
  cases hdet : detectDims env st with
  | error e => rw [hdet] at h; exact absurd h (by simp)
  | ok p =>
    obtain ⟨w, st1⟩ := p
    rw [hdet] at h
    simp only [Except.ok.injEq, Prod.mk.injEq] at h
    obtain ⟨hst, hstore, hops⟩ := h
    refine ⟨w, st1, rfl, ?_, ?_, ?_⟩
    · rw [← hst]
      exact detectDims_ok env st w st1 hdet
    · cases hs : store with
      | none => rw [hs] at hstore; exact ⟨newCollection w, hstore.symm, rfl⟩
      | some col =>
        rw [hs] at hstore
        by_cases hr : col.readable
        · by_cases hwid : col.width = some w
          · by_cases hq : col.queryable
            · simp only [hr, hwid, hq, Bool.not_true, Bool.false_eq_true, if_false,
                if_neg (by simp : ¬ (some w ≠ some w))] at hstore
              exact ⟨col, hstore.symm, hwid⟩
            · simp only [hr, hq, Bool.not_true, Bool.not_false, Bool.false_eq_true,
                if_false, if_true, if_neg (by simp : ¬ (some w ≠ some w)), hwid] at hstore
              exact ⟨newCollection w, hstore.symm, rfl⟩
          · simp only [hr, Bool.not_true, Bool.false_eq_true, if_false, if_pos hwid] at hstore
            exact ⟨newCollection w, hstore.symm, rfl⟩
        · simp only [Bool.not_eq_true] at hr
          simp only [hr, Bool.not_false, if_true] at hstore
          exact ⟨newCollection w, hstore.symm, rfl⟩
    · intro col hcol hwid
      rw [hcol] at hstore hops
      by_cases hr : col.readable
      · simp only [hr, Bool.not_true, Bool.false_eq_true, if_false, if_pos hwid] at hstore hops
        exact ⟨hstore.symm, hops.symm⟩
      · simp only [Bool.not_eq_true] at hr
        simp only [hr, Bool.not_false, if_true] at hstore hops
        exact ⟨hstore.symm, hops.symm⟩

/-- Witness for `initCollection_reconciles`: a pre-existing collection of
width 256 with 41 points, embedding probe width 768: the run succeeds and
ends with a width-768 collection with zero points. -/
theorem initCollection_reconciles_witness :
    (∃ w st1, detectDims ⟨true, .ok 768⟩ ⟨false, false, none⟩ = .ok (w, st1) ∧
      (⟨true, false, some 768⟩ : SysState).actualVectorSize = some w ∧
      (∃ col2, (some (newCollection 768) : Store) = some col2 ∧ col2.width = some w) ∧
      (∀ col, (some ⟨some 256, 41, 41, true, true⟩ : Store) = some col → col.width ≠ some w →
        (some (newCollection 768) : Store) = some (newCollection w) ∧
        ([.deleted, .created 768] : List StoreOp) = [.deleted, .created w])) :=
  initCollection_reconciles ⟨true, .ok 768⟩ ⟨false, false, none⟩
    (some ⟨some 256, 41, 41, true, true⟩) ⟨true, false, some 768⟩
    (some (newCollection 768)) [.deleted, .created 768] rfl

/-- Claim C7: calling `initialize()` again after a successful call is a
no-op — the state and store are unchanged and no store operation (in
particular no collection creation) is performed, whatever the second
call's environment. -/
theorem initService_idempotent (env env2 : QdrantEnv) (svc : ServiceState) (store : Store)
    (svc1 : ServiceState) (store1 : Store) (ops1 : List StoreOp)
    (h : initService env svc store = .ok (svc1, store1, ops1)) :
    initService env2 svc1 store1 = .ok (svc1, store1, []) := by
  have hinit : svc1.isInitialized = true := by
    unfold initService at h
    by_cases hi : svc.isInitialized
    · rw [if_pos hi] at h
      simp only [Except.ok.injEq, Prod.mk.injEq] at h
      rw [← h.1]
      exact hi
    · rw [if_neg hi] at h
      cases hc : initCollection env svc.sys store with
      | ok p =>
        obtain ⟨st2, store2, ops⟩ := p
        rw [hc] at h
        simp only [Except.ok.injEq, Prod.mk.injEq] at h
        rw [← h.1]
      | error e => rw [hc] at h; exact absurd h (by simp)
  unfold initService
  rw [if_pos hinit]

/-- Witness for `initService_idempotent`: a fresh service initialized
against an empty store; the second call is a no-op. -/
theorem initService_idempotent_witness :
    initService ⟨true, .ok 768⟩ ⟨true, ⟨true, false, some 768⟩⟩ (some (newCollection 768))
      = .ok (⟨true, ⟨true, false, some 768⟩⟩, some (newCollection 768), []) :=
  initService_idempotent ⟨true, .ok 768⟩ ⟨true, .ok 768⟩ ⟨false, ⟨false, false, none⟩⟩ none
    ⟨true, ⟨true, false, some 768⟩⟩ (some (newCollection 768)) [.created 768] rfl

/-- Claim C5: with the vector store bound and non-blank input, a
successful first upsert performs one attempt; a non-dimension upsert
failure propagates with one attempt and no retry; a dimension-mismatch
failure triggers exactly one repair cycle (cached width cleared via
`resetForRepair`, collection reinitialized, upsert retried once), after
which any outcome — including a second failure of any kind — is final as
of two attempts. -/
theorem processText_retry (ienv : IngestEnv) (qenv : QdrantEnv) (st : SysState)
    (store : Store) (text : String) (hvs : st.vectorStore = true)
    (htext : (text == "" || jsBlank text) = false) :
    (ienv.addDocs1 = .ok () →
      processText ienv qenv st store text
        = (.ok ({ st with retrievalChain := true }, store), 1)) ∧
    (∀ e, ienv.addDocs1 = .error e → jsIncludes e.message "dimension" = false →
      processText ienv qenv st store text = (.error (wrapErr procFailMsg e), 1)) ∧
    (∀ e, ienv.addDocs1 = .error e → jsIncludes e.message "dimension" = true →
      (∀ e2, initCollection qenv (resetForRepair st) store = .error e2 →
        processText ienv qenv st store text = (.error (wrapErr procFailMsg e2), 1)) ∧
      (∀ st2 store2 ops, initCollection qenv (resetForRepair st) store = .ok (st2, store2, ops) →
        (ienv.addDocs2 = .ok () →
          processText ienv qenv st store text
            = (.ok ({ st2 with retrievalChain := true }, store2), 2)) ∧
        (∀ e3, ienv.addDocs2 = .error e3 →
          processText ienv qenv st store text = (.error (wrapErr procFailMsg e3), 2)))) := by
  obtain ⟨vs, rc, avs⟩ := st
  have hvs2 : vs = true := hvs
  subst hvs2
  unfold processText
  simp only [Bool.not_true, Bool.false_eq_true, if_false, htext]
  refine ⟨fun h1 => by rw [h1], fun e h1 hd => by rw [h1]; simp only [hd,
    Bool.false_eq_true, if_false], fun e h1 hd => ⟨fun e2 h2 => ?_, ?_⟩⟩
  · rw [h1]
    simp only [hd, if_true, h2]
  · intro st2 store2 ops h2
    refine ⟨fun h3 => ?_, fun e3 h3 => ?_⟩
    · rw [h1]
      simp only [hd, if_true, h2, h3]
    · rw [h1]
      simp only [hd, if_true, h2, h3]

/-- Witness for `processText_retry`: the first upsert fails with a
dimension mismatch, the repair reinitializes the collection at the probed
width 768 and the retried upsert succeeds, for a total of two attempts. -/
theorem processText_retry_witness :
    processText ⟨.error ⟨"Vector dimension mismatch"⟩, .ok ()⟩ ⟨true, .ok 768⟩
        ⟨true, false, some 512⟩ (some ⟨some 512, 3, 3, true, true⟩) "hello world"
      = (.ok (⟨true, true, some 768⟩, some (newCollection 768)), 2) := by
  have h := processText_retry ⟨.error ⟨"Vector dimension mismatch"⟩, .ok ()⟩
    ⟨true, .ok 768⟩ ⟨true, false, some 512⟩ (some ⟨some 512, 3, 3, true, true⟩)
    "hello world" rfl rfl
  exact ((h.2.2 ⟨"Vector dimension mismatch"⟩ rfl (by decide)).2
    ⟨true, false, some 768⟩ (some (newCollection 768)) [.deleted, .created 768] rfl).1 rfl

/-- Claim C8: `getStats` never raises (it is a total function into
`CollectionStats` by construction), and on any internal failure —
uninitialized service or store read failure — it returns zero counts and
`isReady = false`. -/
theorem getStats_failure_value (cname : String) (svc : ServiceState) (store : Store)
    (h : svc.isInitialized = false ∨ storeReadFails store = true) :
    (getStats cname svc store).totalPoints = 0 ∧
    (getStats cname svc store).vectorsCount = 0 ∧
    (getStats cname svc store).isReady = false := by
  unfold getStats
  by_cases hi : svc.isInitialized
  · rw [hi]
    simp only [Bool.not_true, Bool.false_eq_true, if_false]
    have hrf : storeReadFails store = true := by
      cases h with
      | inl h0 => rw [hi] at h0; exact absurd h0 (by simp)
      | inr h0 => exact h0
    unfold getCollectionStats getCollectionStatsTry
    cases store with
    | none => exact ⟨rfl, rfl, rfl⟩
    | some col =>
      have hr : col.readable = false := by
        unfold storeReadFails at hrf
        simpa using hrf
      simp only [hr, Bool.false_eq_true, if_false]
      exact ⟨by trivial, by trivial, by trivial⟩
  · simp only [Bool.not_eq_true] at hi
    rw [hi]
    simp only [Bool.not_false, if_true]
    exact ⟨by trivial, by trivial, by trivial⟩

/-- Witness for `getStats_failure_value`: initialized service whose
collection has vanished from the store. -/
theorem getStats_failure_value_witness :
    (getStats "FINAL_RAG_COLLECTIONS" ⟨true, ⟨true, true, some 768⟩⟩ none).totalPoints = 0 ∧
    (getStats "FINAL_RAG_COLLECTIONS" ⟨true, ⟨true, true, some 768⟩⟩ none).vectorsCount = 0 ∧
    (getStats "FINAL_RAG_COLLECTIONS" ⟨true, ⟨true, true, some 768⟩⟩ none).isReady = false :=
  getStats_failure_value "FINAL_RAG_COLLECTIONS" ⟨true, ⟨true, true, some 768⟩⟩ none (Or.inr rfl)

/-- Counterexample to claim C9 as stated: on a service whose vector store
handle was never bound (e.g. never initialized), `clearAll` completes
successfully without deleting the pre-existing collection from the store. -/
theorem clearAll_counterexample :
    clearAll ⟨true⟩ ⟨false, resetSys⟩ (some (newCollection 768))
      = .ok (⟨false, resetSys⟩, some (newCollection 768)) ∧
    (some (newCollection 768) : Store) ≠ (none : Store) :=
  ⟨rfl, by simp⟩

/-- Claim C9 (amended): after `clear()` completes successfully the
pipeline state is fully reset to uninitialized (handle, chain binding,
cached width and initialized flag all cleared); the backing collection is
deleted exactly when the vector store handle was bound — when it was not,
the store is left untouched. -/
theorem clearAll_resets (env : ClearEnv) (svc : ServiceState) (store : Store)
    (svc1 : ServiceState) (store1 : Store)
    (h : clearAll env svc store = .ok (svc1, store1)) :
    svc1 = ⟨false, resetSys⟩ ∧
    (svc.sys.vectorStore = true → store1 = none) ∧
    (svc.sys.vectorStore = false → store1 = store) := by
  unfold clearAll clearDocuments at h
  by_cases hvs : svc.sys.vectorStore
  · rw [hvs] at h
    simp only [if_true] at h
    by_cases hd : env.deleteOk
    · rw [if_pos hd] at h
      simp only [Except.ok.injEq, Prod.mk.injEq] at h
      exact ⟨h.1.symm, fun _ => h.2.symm, fun hc => absurd hvs (by rw [hc]; simp)⟩
    · rw [if_neg hd] at h
      exact absurd h (by simp)
  · simp only [Bool.not_eq_true] at hvs
    rw [hvs] at h
    simp only [Bool.false_eq_true, if_false, Except.ok.injEq, Prod.mk.injEq] at h
    exact ⟨h.1.symm, fun hc => absurd hc (by rw [hvs]; simp), fun _ => h.2.symm⟩

/-- Witness for `clearAll_resets`: a fully initialized service; clear
deletes the collection and resets every field. -/
theorem clearAll_resets_witness :
    (⟨false, resetSys⟩ : ServiceState) = ⟨false, resetSys⟩ ∧
    ((⟨true, ⟨true, true, some 768⟩⟩ : ServiceState).sys.vectorStore = true →
      (none : Store) = none) ∧
    ((⟨true, ⟨true, true, some 768⟩⟩ : ServiceState).sys.vectorStore = false →
      (none : Store) = some (newCollection 768)) :=
  clearAll_resets ⟨true⟩ ⟨true, ⟨true, true, some 768⟩⟩ (some (newCollection 768))
    ⟨false, resetSys⟩ none rfl

/-- Counterexample to claim C10 as stated: a chunk whose content is the
empty parts array is truthy (arrays are always truthy in JavaScript), is
not dropped, and its string coercion is the empty string — so an empty
fragment is yielded. -/
theorem convertStream_counterexample :
    ¬ (∀ s ∈ convertStreamToStringIterable [⟨.parts []⟩], s ≠ "") :=
  fun h => h "" (by decide) rfl

/-- Claim C10 (amended): every yielded fragment comes from a chunk with
truthy content and equals that content's string coercion; fragments from
string content are non-empty (empty/falsy string content is dropped), but
non-string truthy content may coerce to the empty string (e.g. the empty
parts array).  Falsy content never yields a fragment. -/
theorem convertStream_fragments (stream : List AIMessageChunk) :
    (∀ s ∈ convertStreamToStringIterable stream,
      ∃ c ∈ stream, jsTruthyContent c.content = true ∧ s = jsStringOf c.content ∧
        (∀ t, c.content = .str t → s ≠ "")) ∧
    (∀ c : AIMessageChunk, jsTruthyContent c.content = false → convertChunk c = none) := by
  constructor
  · intro s hs
    obtain ⟨c, hc, hcs⟩ := List.mem_filterMap.mp hs
    refine ⟨c, hc, ?_⟩
    unfold convertChunk at hcs
    cases hcon : c.content with
    | str t =>
      rw [hcon] at hcs
      by_cases ht : t = ""
      · subst ht
        simp at hcs
      · have htb : (t != "") = true := by simpa using ht
        simp only [htb, if_true, Option.some.injEq] at hcs
        subst hcs
        exact ⟨htb, rfl, fun u hu => ht⟩
    | parts xs =>
      rw [hcon] at hcs
      simp only [Option.some.injEq] at hcs
      subst hcs
      exact ⟨rfl, rfl, fun u hu => MessageContent.noConfusion hu⟩
  · intro c hc
    unfold convertChunk
    cases hcon : c.content with
    | str t =>
      rw [hcon] at hc
      have htf : (t != "") = false := by simpa [jsTruthyContent] using hc
      simp [htf]
    | parts xs =>
      rw [hcon] at hc
      simp [jsTruthyContent] at hc

/-- Witness for `convertStream_fragments` on a one-chunk stream with
non-empty string content. -/
theorem convertStream_fragments_witness :
    ∃ c ∈ [AIMessageChunk.mk (.str "hi")], jsTruthyContent c.content = true ∧
      "hi" = jsStringOf c.content ∧ (∀ t, c.content = .str t → "hi" ≠ "") :=
  (convertStream_fragments [⟨.str "hi"⟩]).1 "hi" (by decide)

/-- Counterexample to claim C2 as stated: with a ready pipeline and a
readable collection holding zero points, `askQuestion` throws (the error
surfaces, wrapped) instead of returning a `QAResult` with confidence 0 and
the fixed not-found answer. -/
theorem emptyCorpus_counterexample :
    askQuestion "c" ⟨.ok [⟨"doc", []⟩], .ok [], .ok [], .ok "a", .ok (.str "x")⟩
        ⟨true, true, some 768⟩ (some ⟨some 768, 0, 0, true, true⟩) "q"
      = .error ⟨"Failed to answer question: Error: No documents found in the collection. Please upload documents first."⟩ ∧
    ∀ r : QAResult,
      askQuestion "c" ⟨.ok [⟨"doc", []⟩], .ok [], .ok [], .ok "a", .ok (.str "x")⟩
        ⟨true, true, some 768⟩ (some ⟨some 768, 0, 0, true, true⟩) "q" ≠ .ok r := by
  refine ⟨rfl, fun r h => ?_⟩
  rw [show askQuestion "c" ⟨.ok [⟨"doc", []⟩], .ok [], .ok [], .ok "a", .ok (.str "x")⟩
      ⟨true, true, some 768⟩ (some ⟨some 768, 0, 0, true, true⟩) "q"
    = .error ⟨"Failed to answer question: Error: No documents found in the collection. Please upload documents first."⟩ from rfl] at h
  exact Except.noConfusion h

/-- Claim C2 (amended): when the ready pipeline sees a collection whose
read point count is zero, `askQuestion` throws the wrapped no-documents
error without attempting any retrieval tier (the result is the same for
every tier outcome, as the environment is universally quantified). -/
theorem emptyCorpus_throws (cname : String) (env : QAEnv) (st : SysState) (store : Store)
    (q : String) (hrc : st.retrievalChain = true) (hvs : st.vectorStore = true)
    (hpts : (getCollectionStats cname st store).totalPoints = 0) :
    askQuestion cname env st store q = .error (wrapErr askFailMsg
      ⟨"No documents found in the collection. Please upload documents first."⟩) := by
  unfold askQuestion
  rw [hrc, hvs]
  simp only [Bool.not_true, Bool.or_self, Bool.false_eq_true, if_false]
  unfold askBody
  rw [if_pos hpts]

/-- Witness for `emptyCorpus_throws` with all three tiers set up to
succeed: the error does not depend on them. -/
theorem emptyCorpus_throws_witness :
    askQuestion "docs" ⟨.ok [⟨"paris", []⟩], .ok [⟨"paris", []⟩],
        .ok [⟨some ⟨some "paris", some []⟩⟩], .ok "a", .ok (.str "x")⟩
      ⟨true, true, some 768⟩ (some ⟨some 768, 0, 7, true, true⟩) "capital"
      = .error (wrapErr askFailMsg
          ⟨"No documents found in the collection. Please upload documents first."⟩) :=
  emptyCorpus_throws "docs" ⟨.ok [⟨"paris", []⟩], .ok [⟨"paris", []⟩],
      .ok [⟨some ⟨some "paris", some []⟩⟩], .ok "a", .ok (.str "x")⟩
    ⟨true, true, some 768⟩ (some ⟨some 768, 0, 7, true, true⟩) "capital" rfl rfl rfl

/-- Claim C4: retrieval attempts the structured similarity search first;
the raw retriever runs only if tier 1 threw; the direct Qdrant query runs
only if tier 2 also threw and its points are returned (converted to
documents) unchanged as the result's sources; when all three tiers throw,
the propagated error carries the innermost (tier-3) failure. -/
theorem retrieval_fallback (cname : String) (env : QAEnv) (st : SysState) (store : Store)
    (q : String) (hrc : st.retrievalChain = true) (hvs : st.vectorStore = true)
    (hpts : (getCollectionStats cname st store).totalPoints ≠ 0) :
    (∀ docs, env.tier1 = .ok docs → retrieveDocs env = .ok docs) ∧
    (∀ e1 docs, env.tier1 = .error e1 → env.tier2 = .ok docs →
      retrieveDocs env = .ok docs) ∧
    (∀ e1 e2 points, env.tier1 = .error e1 → env.tier2 = .error e2 →
      env.tier3 = .ok points →
      retrieveDocs env = .ok (points.map pointToDoc) ∧
      (∀ ans, env.chain = .ok ans → points.map pointToDoc ≠ [] →
        askQuestion cname env st store q = .ok
          { answer := ans, sources := points.map pointToDoc,
            confidence := calculateConfidence q (points.map pointToDoc),
            retrievalTime := 0, generationTime := 0,
            chunksUsed := (points.map pointToDoc).length })) ∧
    (∀ e1 e2 e3, env.tier1 = .error e1 → env.tier2 = .error e2 →
      env.tier3 = .error e3 →
      askQuestion cname env st store q = .error (wrapErr askFailMsg
        ⟨"All retrieval methods failed: " ++ errString e3⟩)) := by
  refine ⟨fun docs h1 => by unfold retrieveDocs; rw [h1],
    fun e1 docs h1 h2 => by unfold retrieveDocs; rw [h1, h2],
    fun e1 e2 points h1 h2 h3 => ?_,
    fun e1 e2 e3 h1 h2 h3 => ?_⟩
  · have hret : retrieveDocs env = .ok (points.map pointToDoc) := by
      unfold retrieveDocs; rw [h1, h2, h3]
    refine ⟨hret, fun ans hchain hne => ?_⟩
    have hlen : (points.map pointToDoc).length ≠ 0 :=
      fun h0 => hne (List.length_eq_zero.mp h0)
    unfold askQuestion
    rw [hrc, hvs]
    simp only [Bool.not_true, Bool.or_self, Bool.false_eq_true, if_false]
    unfold askBody genAnswer
    rw [if_neg hpts]
    simp only [hret, hlen, if_false, hchain]
  · unfold askQuestion
    rw [hrc, hvs]
    simp only [Bool.not_true, Bool.or_self, Bool.false_eq_true, if_false]
    unfold askBody retrieveDocs
    rw [if_neg hpts]
    simp only [h1, h2, h3]

/-- Witness for `retrieval_fallback`: tiers 1 and 2 throw, tier 3 returns
one point, and the answer carries exactly the converted tier-3 document. -/
theorem retrieval_fallback_witness :
    askQuestion "c" ⟨.error ⟨"t1"⟩, .error ⟨"t2"⟩,
        .ok [⟨some ⟨some "alpha", some []⟩⟩], .ok "the answer", .ok (.str "x")⟩
      ⟨true, true, some 768⟩ (some ⟨some 768, 5, 5, true, true⟩) "q"
      = .ok { answer := "the answer",
              sources := [QdrantPoint.mk (some ⟨some "alpha", some []⟩)].map pointToDoc,
              confidence := calculateConfidence "q"
                ([QdrantPoint.mk (some ⟨some "alpha", some []⟩)].map pointToDoc),
              retrievalTime := 0, generationTime := 0,
              chunksUsed := ([QdrantPoint.mk (some ⟨some "alpha", some []⟩)].map pointToDoc).length } :=
  ((retrieval_fallback "c" ⟨.error ⟨"t1"⟩, .error ⟨"t2"⟩,
        .ok [⟨some ⟨some "alpha", some []⟩⟩], .ok "the answer", .ok (.str "x")⟩
      ⟨true, true, some 768⟩ (some ⟨some 768, 5, 5, true, true⟩) "q" rfl rfl
      (by decide)).2.2.1 ⟨"t1"⟩ ⟨"t2"⟩ [⟨some ⟨some "alpha", some []⟩⟩]
      rfl rfl rfl).2 "the answer" rfl (by decide)

end Rag

